import Mathlib

/-!
Verification of the news-platform REST API (Express + MySQL) against its
specification.  The definitions below are a shallow embedding of the route
handlers and middleware found in the repository: each handler becomes a pure
function from the database state and the request data to a response and the
successor state.  SQL statements over the four tables are embedded as list
operations with the same filter conditions the WHERE clauses carry.
-/

namespace NewsPlatform

/-- A row of the `users` table (`id` auto-increment primary key, unique
`username`/`email`, bcrypt `password` hash). -/
structure UserRow where
  id : Nat
  username : String
  email : String
  password : String
deriving DecidableEq, Repr

/-- A row of the `categories` table. -/
structure CategoryRow where
  id : Nat
  name : String
  description : String
deriving DecidableEq, Repr

/-- A row of the `articles` table; `category_id` and `submitter_id` are the
foreign keys to `categories` and `users`. -/
structure ArticleRow where
  id : Nat
  title : String
  body : String
  category_id : Nat
  submitter_id : Nat
deriving DecidableEq, Repr

/-- A row of the `comments` table; `article_id` and `user_id` are the foreign
keys to `articles` and `users`. -/
structure CommentRow where
  id : Nat
  content : String
  article_id : Nat
  user_id : Nat
deriving DecidableEq, Repr

/-- The storage state: the four tables, each as its list of rows in table
order.  The storage-level cascade (deleting a user cascades to their articles
and comments) happens inside MySQL and is not exercised by any handler path
modelled here. -/
structure DB where
  users : List UserRow
  categories : List CategoryRow
  articles : List ArticleRow
  comments : List CommentRow
deriving DecidableEq, Repr

/-- An HTTP response as far as the claims observe it: the status code and the
body's error/message string (the handlers put it under a `message` or `error`
JSON key; both are modelled by the single `error` field).  Success payloads
other than list bodies are not observed by any claim and are dropped. -/
structure Resp where
  status : Nat
  error : Option String
deriving DecidableEq, Repr

/-- JavaScript truthiness of an optional string field of a request body:
an absent field and the empty string are falsy (`if (title)` in the source). -/
def truthyS : Option String → Bool
  | none => false
  | some s => s ≠ ""

/-- JavaScript truthiness of an optional numeric field of a request body:
an absent field and the number 0 are falsy (`if (article_id)` in the source). -/
def truthyN : Option Nat → Bool
  | none => false
  | some n => n ≠ 0

/-- An error object reaching the error-handling middleware: JavaScript
property access `err.status` / `err.message` yields `undefined` when the
property is missing, modelled by `none`. -/
structure JsError where
  statusField : Option Nat
  messageField : Option String
deriving DecidableEq, Repr

/-- `errorHandler` from `middleware/error-handler.ts`: responds with
`err.status || 500` and `{ error: err.message || "Internal server error" }`
(`||` takes the default on `undefined`, `0` and the empty string, which are
falsy). The `console.error(err)` server-side log has no observable effect on
the response and is not modelled. -/
def errorHandler (err : JsError) : Resp :=
  let status := match err.statusField with
    | none => 500
    | some n => if n = 0 then 500 else n
  let message := match err.messageField with
    | none => "Internal server error"
    | some m => if m = "" then "Internal server error" else m
  ⟨status, some message⟩

/-- The detail string of the storage engine's complaint about the UPDATE
statement a zero-field PATCH generates (`UPDATE <table> SET  WHERE id = ?`,
an empty SET clause, which MySQL rejects with a syntax error whose message
carries the offending SQL).  The exact text stands in for the engine's
detail; only its presence and the absence of a `status` property matter. -/
def sqlSyntaxErrorDetail : String :=
  "You have an error in your SQL syntax; check the manual ... near WHERE id = ?"

/-! ## Pagination resolver (`utils/pagination.ts`) -/

/-- Numeric value of a list of decimal digit characters, most significant
first (the value JavaScript `Number` gives an all-digit string). -/
def digitsVal (cs : List Char) : Nat :=
  cs.foldl (fun a c => a * 10 + (c.toNat - 48)) 0

/-- JavaScript `Number` coercion trims ASCII whitespace first. -/
def isJsSpace (c : Char) : Bool :=
  c = ' ' ∨ c = '\t' ∨ c = '\n' ∨ c = '\r'

/-- Leading and trailing whitespace removed. -/
def trimChars (cs : List Char) : List Char :=
  ((cs.dropWhile isJsSpace).reverse.dropWhile isJsSpace).reverse

/-- An unsigned decimal literal: `digits`, `digits.digits`, `digits.` or
`.digits`; anything else is NaN (`none`). -/
def parseUnsignedDec (cs : List Char) : Option ℚ :=
  let ip := cs.takeWhile Char.isDigit
  let rest := cs.dropWhile Char.isDigit
  match rest with
  | [] => if ip.isEmpty then none else some (digitsVal ip)
  | '.' :: fp =>
    if fp.all Char.isDigit && !(ip.isEmpty && fp.isEmpty) then
      some ((digitsVal ip : ℚ) + (digitsVal fp : ℚ) / (10 : ℚ) ^ fp.length)
    else none
  | _ => none

/-- The JavaScript `Number(string)` coercion on the decimal forms query
parameters take: whitespace is trimmed, the empty string is 0, an optional
sign precedes a decimal literal; any other string is NaN, encoded `none`.
(Exponent, hexadecimal and `Infinity` forms are outside the modelled input
space.) -/
def jsNumber (s : String) : Option ℚ :=
  match trimChars s.data with
  | [] => some 0
  | '-' :: cs => (parseUnsignedDec cs).map (fun q => -q)
  | '+' :: cs => parseUnsignedDec cs
  | cs => parseUnsignedDec cs

/-- The result of `getPagination`. -/
structure Pagination where
  page : ℚ
  limit : ℚ
  offset : ℚ
deriving DecidableEq, Repr

/-- JavaScript `x || d` on a number: the default replaces NaN and 0. -/
def jsOrDefault (v : Option ℚ) (d : ℚ) : ℚ :=
  match v with
  | none => d
  | some q => if q = 0 then d else q

/-- `getPagination` from `utils/pagination.ts`:
`page = Number(req.query.page) || 1`, `limit = Number(req.query.limit) || 10`,
`offset = (page - 1) * limit`.  An absent query parameter is `undefined`, and
`Number(undefined)` is NaN. -/
def getPagination (pageQ limitQ : Option String) : Pagination :=
  let page := jsOrDefault (pageQ.bind jsNumber) 1
  let limit := jsOrDefault (limitQ.bind jsNumber) 10
  { page := page, limit := limit, offset := (page - 1) * limit }

/-! ## Token service and authentication guard
(`utils/jwt.ts`, `middleware/auth.ts`)

Token signing and verification are external primitives; `verifyToken` is
passed in abstractly as a function from the token string to the `userId`
payload it certifies (`none` for an invalid or expired token, as the
source's `verifyToken` returns `null` from the caught exception). -/

/-- Outcome of the `authenticateToken` middleware. -/
inductive AuthResult where
  | fail (status : Nat) (msg : String)
  | ok (userId : Nat)
deriving DecidableEq, Repr

/-- `authenticateToken` from `middleware/auth.ts`: missing header is 401,
a header without the `Bearer ` prefix is 401, a failed `verifyToken` is 403,
and on success the payload's `userId` is attached to the request; the
middleware consults nothing but the header and `verifyToken`.  The prefix
test `authHeader.startsWith("Bearer ")` and the cut `substring(7)` are
embedded as a match on the first seven characters. -/
def authenticateToken (verify : String → Option Nat) (authHeader : Option String) :
    AuthResult :=
  match authHeader with
  | none => .fail 401 "Access token required"
  | some h =>
    match h.data with
    | 'B' :: 'e' :: 'a' :: 'r' :: 'e' :: 'r' :: ' ' :: rest =>
      match verify (String.mk rest) with
      | none => .fail 403 "Invalid or expired token"
      | some uid => .ok uid
    | _ => .fail 401 "Token must be in format: Bearer <token>"

/-! ## Identifier validation (`middleware/validation.ts/validate-id.ts`) -/

/-- The `validateId` middleware accepts exactly the strings matching the
regular expression `^\d+$`: nonempty and all decimal digits. -/
def validateIdOk (s : String) : Bool :=
  !s.data.isEmpty && s.data.all Char.isDigit

/-- A SQL `UPDATE <table> SET <g> WHERE <cond>` over a table held as a list:
every row satisfying the WHERE condition is replaced by its updated image.
The same condition determines `affectedRows` (the matched rows, the
behaviour of the mysql2 driver's default `FOUND_ROWS` flag). -/
def sqlUpdate {α : Type} (l : List α) (cond : α → Bool) (g : α → α) : List α :=
  l.map fun a => if cond a then g a else a

/-! ## Articles routes (`routes/articles.ts`) -/

/-- The query-string parameters a list request may carry. -/
structure ListQuery where
  page : Option String
  limit : Option String
  sort : Option String
deriving DecidableEq, Repr

/-- The row shape produced by the article list's INNER JOINs. -/
structure ArticleWithNames where
  id : Nat
  title : String
  body : String
  category_id : Nat
  category_name : String
  submitter_id : Nat
  submitter_name : String
deriving DecidableEq, Repr

/-- The `GET /articles` handler: a single SELECT joining `categories` and
`users`, with no ORDER BY, no LIMIT/OFFSET and no use of `req.query` — the
handler body never reads the query object, so `q` is unused.  The INNER
JOINs drop articles whose category or submitter has no row; each surviving
article appears in table order with the joined names (foreign keys resolve to
the first row carrying the id, which is unique). -/
def getArticles (db : DB) (_q : ListQuery) : List ArticleWithNames :=
  db.articles.filterMap fun a =>
    match db.categories.find? (fun c => c.id == a.category_id),
          db.users.find? (fun u => u.id == a.submitter_id) with
    | some c, some u =>
      some ⟨a.id, a.title, a.body, a.category_id, c.name, a.submitter_id, u.username⟩
    | _, _ => none

/-- The `POST /articles` handler after the guard and body validation:
`SELECT id FROM categories WHERE id = ?` must find the category, else 404
with no write; then the INSERT appends a row stamped with the caller as
submitter and the auto-increment id. -/
def postArticle (db : DB) (callerId : Nat) (title bodyStr : String)
    (categoryId : Nat) : Resp × DB :=
  if (db.categories.filter (fun c => c.id == categoryId)).length = 0 then
    (⟨404, some "Category not found"⟩, db)
  else
    let newId := (db.articles.map (fun a => a.id)).foldr max 0 + 1
    (⟨201, none⟩,
     { db with articles := db.articles ++ [⟨newId, title, bodyStr, categoryId, callerId⟩] })

/-- The `PUT /articles/:id` handler: the category existence check (404, no
write), then `UPDATE articles SET ... WHERE id = ? AND submitter_id = ?`;
zero affected rows is answered 403. -/
def putArticle (db : DB) (articleId callerId : Nat) (title bodyStr : String)
    (categoryId : Nat) : Resp × DB :=
  if (db.categories.filter (fun c => c.id == categoryId)).length = 0 then
    (⟨404, some "Category not found"⟩, db)
  else
    let cond := fun a : ArticleRow => a.id == articleId && a.submitter_id == callerId
    let matched := db.articles.filter cond
    let db' := { db with articles := sqlUpdate db.articles cond fun a =>
      { a with title := title, body := bodyStr, category_id := categoryId } }
    if matched.length = 0 then
      (⟨403, some "You can only edit your own articles"⟩, db')
    else (⟨201, none⟩, db')

/-- The `PATCH /articles/:id` handler: fields are collected by JavaScript
truthiness (`if (title)`, `if (body)`) and by presence for the category
(`category_id !== undefined`), whose existence check runs before the UPDATE;
with zero collected fields the generated `UPDATE articles SET  WHERE ...` is
rejected by the storage engine and surfaces through `errorHandler`; otherwise
the ownership-filtered UPDATE runs and zero affected rows is answered 403. -/
def patchArticle (db : DB) (articleId callerId : Nat)
    (title? bodyStr? : Option String) (categoryId? : Option Nat) : Resp × DB :=
  let hasT := truthyS title?
  let hasB := truthyS bodyStr?
  if categoryId?.isSome &&
      (db.categories.filter (fun c => c.id == categoryId?.getD 0)).length = 0 then
    (⟨404, some "Category not found"⟩, db)
  else if !hasT && !hasB && !categoryId?.isSome then
    (errorHandler ⟨none, some sqlSyntaxErrorDetail⟩, db)
  else
    let cond := fun a : ArticleRow => a.id == articleId && a.submitter_id == callerId
    let matched := db.articles.filter cond
    let db' := { db with articles := sqlUpdate db.articles cond fun a =>
      { a with
        title := if hasT then title?.getD a.title else a.title,
        body := if hasB then bodyStr?.getD a.body else a.body,
        category_id := categoryId?.getD a.category_id } }
    if matched.length = 0 then
      (⟨403, some "You can only edit your own articles"⟩, db')
    else (⟨200, none⟩, db')

/-- The `DELETE /articles/:id` handler:
`DELETE FROM articles WHERE id = ? AND submitter_id = ?`; zero affected rows
is answered 403, else 204. -/
def deleteArticle (db : DB) (articleId callerId : Nat) : Resp × DB :=
  let matched := db.articles.filter
    (fun a => a.id == articleId && a.submitter_id == callerId)
  let kept := db.articles.filter
    (fun a => !(a.id == articleId && a.submitter_id == callerId))
  let db' := { db with articles := kept }
  if matched.length = 0 then
    (⟨403, some "You can only delete your own articles"⟩, db')
  else (⟨204, none⟩, db')

/-! ## Comments routes (`routes/comments.ts`) -/

/-- The `POST /comments` handler after the guard and body validation:
`SELECT id FROM articles WHERE id = ?` must find the article, else 404 with
no write; then the INSERT appends a row stamped with the caller. -/
def postComment (db : DB) (callerId : Nat) (content : String)
    (articleId : Nat) : Resp × DB :=
  if (db.articles.filter (fun a => a.id == articleId)).length = 0 then
    (⟨404, some "Article not found"⟩, db)
  else
    let newId := (db.comments.map (fun c => c.id)).foldr max 0 + 1
    (⟨201, none⟩,
     { db with comments := db.comments ++ [⟨newId, content, articleId, callerId⟩] })

/-- The `PUT /comments/:id` handler: the article existence check (404, no
write), then `UPDATE comments SET content = ?, article_id = ? WHERE id = ?
AND user_id = ?`; zero affected rows is answered 403. -/
def putComment (db : DB) (commentId callerId : Nat) (content : String)
    (articleId : Nat) : Resp × DB :=
  if (db.articles.filter (fun a => a.id == articleId)).length = 0 then
    (⟨404, some "Article not found"⟩, db)
  else
    let cond := fun c : CommentRow => c.id == commentId && c.user_id == callerId
    let matched := db.comments.filter cond
    let db' := { db with comments := sqlUpdate db.comments cond fun c =>
      { c with content := content, article_id := articleId } }
    if matched.length = 0 then
      (⟨403, some "You can only edit your own comments"⟩, db')
    else (⟨201, none⟩, db')

/-- The `PATCH /comments/:id` handler: both fields are collected by
JavaScript truthiness (`if (content)`, `if (article_id)`); a truthy
`article_id` triggers the article existence check (404, no write) before
the UPDATE; zero collected fields make the generated empty-SET UPDATE fail
at the storage engine and surface through `errorHandler`; otherwise zero
affected rows is answered 403. -/
def patchComment (db : DB) (commentId callerId : Nat)
    (content? : Option String) (articleId? : Option Nat) : Resp × DB :=
  let hasC := truthyS content?
  let hasA := truthyN articleId?
  if hasA && (db.articles.filter (fun a => a.id == articleId?.getD 0)).length = 0 then
    (⟨404, some "Article not found"⟩, db)
  else if !hasC && !hasA then
    (errorHandler ⟨none, some sqlSyntaxErrorDetail⟩, db)
  else
    let cond := fun c : CommentRow => c.id == commentId && c.user_id == callerId
    let matched := db.comments.filter cond
    let db' := { db with comments := sqlUpdate db.comments cond fun c =>
      { c with
        content := if hasC then content?.getD c.content else c.content,
        article_id := if hasA then articleId?.getD c.article_id else c.article_id } }
    if matched.length = 0 then
      (⟨403, some "You can only edit your own comments"⟩, db')
    else (⟨200, none⟩, db')

/-- The `DELETE /comments/:id` handler:
`DELETE FROM comments WHERE id = ? AND user_id = ?`; zero affected rows is
answered 403, else 204. -/
def deleteComment (db : DB) (commentId callerId : Nat) : Resp × DB :=
  let matched := db.comments.filter
    (fun c => c.id == commentId && c.user_id == callerId)
  let kept := db.comments.filter
    (fun c => !(c.id == commentId && c.user_id == callerId))
  let db' := { db with comments := kept }
  if matched.length = 0 then
    (⟨403, some "You can only delete your own comments"⟩, db')
  else (⟨204, none⟩, db')

/-! ## Users routes (`routes/users.ts`) -/

/-- The `GET /users/:id` pipeline: the `validateId("User ID")` middleware
rejects an id that fails `^\d+$` with a 400 `Validation failed` body; the
handler then selects by `Number(req.params.id)` and answers 404 when no row
exists, 200 otherwise. -/
def getUserById (db : DB) (idStr : String) : Resp :=
  if !validateIdOk idStr then ⟨400, some "Validation failed"⟩
  else if (db.users.filter (fun u => u.id == digitsVal idStr.data)).length = 0 then
    ⟨404, some "User not found"⟩
  else ⟨200, none⟩

/-- The `PUT /users/:id` handler after validation and the guard: an explicit
ownership guard clause (`req.user.id !== userId` answers 403 before any
storage operation), then `UPDATE users SET username = ?, email = ? WHERE
id = ?`; zero affected rows is answered 404. -/
def putUser (db : DB) (targetId callerId : Nat) (username email : String) :
    Resp × DB :=
  if callerId ≠ targetId then
    (⟨403, some "You can only edit your own user"⟩, db)
  else
    let matched := db.users.filter (fun u => u.id == targetId)
    let db' := { db with users := sqlUpdate db.users (fun u => u.id == targetId) fun u =>
      { u with username := username, email := email } }
    if matched.length = 0 then (⟨404, some "User not found"⟩, db')
    else (⟨200, none⟩, db')

/-- The `PATCH /users/:id` handler: the same explicit ownership guard clause
first (403 before anything else), then fields collected by JavaScript
truthiness; with zero collected fields the generated
`UPDATE users SET  WHERE id = ?` is rejected by the storage engine and
surfaces through `errorHandler`; otherwise zero affected rows is 404. -/
def patchUser (db : DB) (targetId callerId : Nat)
    (username? email? : Option String) : Resp × DB :=
  if callerId ≠ targetId then
    (⟨403, some "You can only edit your own user"⟩, db)
  else
    let hasU := truthyS username?
    let hasE := truthyS email?
    if !hasU && !hasE then
      (errorHandler ⟨none, some sqlSyntaxErrorDetail⟩, db)
    else
      let matched := db.users.filter (fun u => u.id == targetId)
      let db' := { db with users := sqlUpdate db.users (fun u => u.id == targetId) fun u =>
        { u with
          username := if hasU then username?.getD u.username else u.username,
          email := if hasE then email?.getD u.email else u.email } }
      if matched.length = 0 then (⟨404, some "User not found"⟩, db')
      else (⟨200, none⟩, db')

/-- The `DELETE /users/:id` handler: the explicit ownership guard clause
(403), then `DELETE FROM users WHERE id = ?`; zero affected rows is answered
404, else 204.  (The storage engine's ON DELETE CASCADE to the user's
articles and comments happens inside MySQL; no claim exercises a successful
user delete, so only the `users` table change is modelled.) -/
def deleteUser (db : DB) (targetId callerId : Nat) : Resp × DB :=
  if callerId ≠ targetId then
    (⟨403, some "You can only delete your own user"⟩, db)
  else
    let matched := db.users.filter (fun u => u.id == targetId)
    let kept := db.users.filter (fun u => !(u.id == targetId))
    let db' := { db with users := kept }
    if matched.length = 0 then (⟨404, some "User not found"⟩, db')
    else (⟨204, none⟩, db')

/-- The full `DELETE /users/:id` route pipeline in its declared middleware
order: `validateId("User ID")`, then `authenticateToken`, then the handler. -/
def deleteUserEndpoint (verify : String → Option Nat) (authHeader : Option String)
    (db : DB) (idStr : String) : Resp × DB :=
  if !validateIdOk idStr then (⟨400, some "Validation failed"⟩, db)
  else
    match authenticateToken verify authHeader with
    | .fail s m => (⟨s, some m⟩, db)
    | .ok uid => deleteUser db (digitsVal idStr.data) uid

/-! ## Login route (`routes/login.ts`) -/

/-- The `POST /login` handler: `SELECT ... FROM users WHERE email = ?` and
`users[0]` — the first row with the email; no row is answered
401 `Invalid email or password`, and a failed `bcrypt.compare` of the
supplied password against the stored hash is answered 401 with the same
message.  The bcrypt primitive is external and passed in abstractly as
`cmp`. -/
def login (cmp : String → String → Bool) (db : DB) (email pw : String) : Resp :=
  match db.users.find? (fun u => u.email == email) with
  | none => ⟨401, some "Invalid email or password"⟩
  | some u =>
    if cmp pw u.password then ⟨200, none⟩
    else ⟨401, some "Invalid email or password"⟩

/-! ## A concrete store for counterexamples and witnesses -/

/-- A small concrete database: two users, two categories (alphabetically out
of join order), four articles alternating between them, two comments. -/
def sampleDB : DB :=
  { users :=
      [⟨1, "alice", "alice@example.com", "hash1"⟩,
       ⟨2, "bob", "bob@example.com", "hash2"⟩],
    categories :=
      [⟨1, "Politics", "Constructive political progress"⟩,
       ⟨2, "Aid", "Humanitarian aid stories"⟩],
    articles :=
      [⟨1, "T1", "B1", 1, 1⟩, ⟨2, "T2", "B2", 2, 2⟩,
       ⟨3, "T3", "B3", 1, 1⟩, ⟨4, "T4", "B4", 2, 2⟩],
    comments := [⟨1, "c1", 1, 1⟩, ⟨2, "c2", 2, 2⟩] }

/-! ## List helper lemmas -/

theorem list_map_id_of {α : Type} (l : List α) (f : α → α)
    (h : ∀ a ∈ l, f a = a) : l.map f = l := by
  induction l with
  | nil => rfl
  | cons x xs ih =>
    have hx := h x (List.mem_cons_self x xs)
    have hxs : ∀ a ∈ xs, f a = a := fun a ha => h a (List.mem_cons_of_mem x ha)
    simp [hx, ih hxs]

theorem list_filter_all_of {α : Type} (l : List α) (p : α → Bool)
    (h : ∀ a ∈ l, p a = true) : l.filter p = l := by
  induction l with
  | nil => rfl
  | cons x xs ih =>
    have hx := h x (List.mem_cons_self x xs)
    have hxs : ∀ a ∈ xs, p a = true := fun a ha => h a (List.mem_cons_of_mem x ha)
    simp [List.filter_cons, hx, ih hxs]

theorem list_filter_nil_of {α : Type} (l : List α) (p : α → Bool)
    (h : ∀ a ∈ l, p a = false) : l.filter p = [] := by
  induction l with
  | nil => rfl
  | cons x xs ih =>
    have hx := h x (List.mem_cons_self x xs)
    have hxs : ∀ a ∈ xs, p a = false := fun a ha => h a (List.mem_cons_of_mem x ha)
    simp [List.filter_cons, hx, ih hxs]

theorem list_filter_length_pos_of {α : Type} (l : List α) (p : α → Bool)
    (a : α) (ha : a ∈ l) (hp : p a = true) : (l.filter p).length ≠ 0 := by
  have hmem : a ∈ l.filter p := List.mem_filter.mpr ⟨ha, hp⟩
  have hne : l.filter p ≠ [] := List.ne_nil_of_mem hmem
  simpa [List.length_eq_zero] using hne

/-- An UPDATE whose WHERE condition matches no row leaves the table as it
was. -/
theorem sqlUpdate_id {α : Type} (l : List α) (cond : α → Bool) (g : α → α)
    (h : ∀ a ∈ l, cond a = false) : sqlUpdate l cond g = l :=
  list_map_id_of _ _ (fun a ha => by simp [h a ha])

/-- The ownership WHERE condition evaluates to false on a row whose owner
column differs from the caller (for the row with the targeted id) or whose
id is not the targeted one. -/
theorem owner_pred_false {aid caller x y : Nat} (h : x = aid → y ≠ caller) :
    (x == aid && y == caller) = false := by
  by_cases h1 : x = aid
  · simp [h1, h h1]
  · simp [h1]

/-! ## Lexicographic order on strings, for stating sortedness -/

/-- Lexicographic comparison of character lists by code point. -/
def charListLe : List Char → List Char → Bool
  | [], _ => true
  | _ :: _, [] => false
  | a :: as, b :: bs =>
    if a.toNat < b.toNat then true
    else if b.toNat < a.toNat then false
    else charListLe as bs

/-- Lexicographic comparison of strings by code point, the order in which
the sort claims read "non-decreasing". -/
def strLe (a b : String) : Bool := charListLe a.data b.data

/-- Every adjacent pair of the list is non-decreasing under `strLe`. -/
def nonDecreasing : List String → Bool
  | [] => true
  | [_] => true
  | a :: b :: rest => strLe a b && nonDecreasing (b :: rest)

/-! # Theorems for the claims -/

/-- C4 counterexample: the pagination resolver does not return a positive
integer for every query — for `page=-5` (absent `limit`) it returns
`page = -5` and a negative offset, because `Number("-5") || 1` keeps the
negative value. -/
theorem getPagination_negative_counterexample :
    (getPagination (some "-5") none).page = -5
    ∧ ¬ (0 < (getPagination (some "-5") none).page)
    ∧ (getPagination (some "-5") none).offset = -60 := by
  have hoff : (getPagination (some "-5") none).offset
      = ((getPagination (some "-5") none).page - 1)
        * (getPagination (some "-5") none).limit := rfl
  have hpage : (getPagination (some "-5") none).page = -5 := by decide
  have hlim : (getPagination (some "-5") none).limit = 10 := rfl
  refine ⟨hpage, ?_, ?_⟩
  · rw [hpage]; norm_num
  · rw [hoff, hpage, hlim]; norm_num

/-- C4 (amended): the resolver returns `page = Number(page)` whenever the
coercion yields a nonzero number — with no positivity or integrality
guarantee — and the default 1 exactly when the parameter is absent,
non-numeric, or zero; `limit` behaves the same with default 10; and
`offset = (page - 1) * limit` always. -/
theorem getPagination_amended (pq lq : Option String) :
    (getPagination pq lq).offset
      = ((getPagination pq lq).page - 1) * (getPagination pq lq).limit
    ∧ (pq.bind jsNumber = none → (getPagination pq lq).page = 1)
    ∧ (∀ q : ℚ, pq.bind jsNumber = some q → q ≠ 0 → (getPagination pq lq).page = q)
    ∧ (pq.bind jsNumber = some 0 → (getPagination pq lq).page = 1)
    ∧ (lq.bind jsNumber = none → (getPagination pq lq).limit = 10)
    ∧ (∀ q : ℚ, lq.bind jsNumber = some q → q ≠ 0 → (getPagination pq lq).limit = q)
    ∧ (lq.bind jsNumber = some 0 → (getPagination pq lq).limit = 10) := by
  refine ⟨rfl, ?_, ?_, ?_, ?_, ?_, ?_⟩
  · intro h; simp [getPagination, jsOrDefault, h]
  · intro q hq hne; simp [getPagination, jsOrDefault, hq, hne]
  · intro h; simp [getPagination, jsOrDefault, h]
  · intro h; simp [getPagination, jsOrDefault, h]
  · intro q hq hne; simp [getPagination, jsOrDefault, hq, hne]
  · intro h; simp [getPagination, jsOrDefault, h]

/-- C4 witness: for `page=2&limit=5` the resolver yields page 2, limit 5,
offset 5. -/
theorem getPagination_amended_witness :
    (getPagination (some "2") (some "5")).page = 2
    ∧ (getPagination (some "2") (some "5")).limit = 5
    ∧ (getPagination (some "2") (some "5")).offset = 5 := by
  obtain ⟨hoff, -, hp, -, -, hl, -⟩ := getPagination_amended (some "2") (some "5")
  have h2 : (Option.bind (some "2") jsNumber) = some 2 := by decide
  have h5 : (Option.bind (some "5") jsNumber) = some 5 := by decide
  have hpage := hp 2 h2 (by norm_num)
  have hlim := hl 5 h5 (by norm_num)
  refine ⟨hpage, hlim, ?_⟩
  rw [hoff, hpage, hlim]; norm_num

/-- C6 counterexample: a storage-layer error object (no `status` property,
its own `message`) reaching the boundary is answered with status 500 whose
body carries the full error message, not the generic text — the detail is
sent to the client. -/
theorem errorHandler_detail_counterexample :
    errorHandler ⟨none, some "connect ECONNREFUSED 127.0.0.1:3306"⟩
      = ⟨500, some "connect ECONNREFUSED 127.0.0.1:3306"⟩
    ∧ (errorHandler ⟨none, some "connect ECONNREFUSED 127.0.0.1:3306"⟩).error
        ≠ some "Internal server error" := by
  exact ⟨by decide, by decide⟩

/-- C6 (amended): an error without a status (or with a falsy one) is
answered 500, and the body carries the error's own message whenever it has
a nonempty one — the generic `Internal server error` text appears only when
the error carries no message. -/
theorem errorHandler_amended (err : JsError) :
    (err.statusField = none → (errorHandler err).status = 500)
    ∧ (err.statusField = some 0 → (errorHandler err).status = 500)
    ∧ (∀ m, err.messageField = some m → m ≠ "" → (errorHandler err).error = some m)
    ∧ (err.messageField = none →
        (errorHandler err).error = some "Internal server error")
    ∧ (err.messageField = some "" →
        (errorHandler err).error = some "Internal server error") := by
  refine ⟨?_, ?_, ?_, ?_, ?_⟩
  · intro h; simp [errorHandler, h]
  · intro h; simp [errorHandler, h]
  · intro m hm hne; simp [errorHandler, hm, hne]
  · intro h; simp [errorHandler, h]
  · intro h; simp [errorHandler, h]

/-- C6 witness: a duplicate-key storage error is surfaced with status 500
and its own message in the body. -/
theorem errorHandler_amended_witness :
    (errorHandler ⟨none, some "ER_DUP_ENTRY: Duplicate entry"⟩).status = 500
    ∧ (errorHandler ⟨none, some "ER_DUP_ENTRY: Duplicate entry"⟩).error
        = some "ER_DUP_ENTRY: Duplicate entry" := by
  obtain ⟨h1, -, h3, -, -⟩ := errorHandler_amended ⟨none, some "ER_DUP_ENTRY: Duplicate entry"⟩
  exact ⟨h1 rfl, h3 "ER_DUP_ENTRY: Duplicate entry" rfl (by decide)⟩

/-- C9 counterexample: the id string `"0"` is not a positive integer, yet
`validateId` (regex `^\d+$`) accepts it, and the lookup then answers 404
`User not found` instead of the claimed 400. -/
theorem validateId_zero_counterexample :
    validateIdOk "0" = true
    ∧ getUserById sampleDB "0" = ⟨404, some "User not found"⟩
    ∧ (getUserById sampleDB "0").status ≠ 400 := by
  exact ⟨by decide, by decide, by decide⟩

/-- C9 (amended): `GET /users/:id` answers 400 exactly when the id fails the
`^\d+$` digit-string test, 404 when it is a digit string (`"0"` included)
whose numeric value matches no stored user, and 200 when a user with that
value exists. -/
theorem getById_amended (db : DB) (s : String) :
    (validateIdOk s = false → getUserById db s = ⟨400, some "Validation failed"⟩)
    ∧ (validateIdOk s = true → (∀ u ∈ db.users, u.id ≠ digitsVal s.data) →
        getUserById db s = ⟨404, some "User not found"⟩)
    ∧ (validateIdOk s = true → (∀ u, u ∈ db.users → u.id = digitsVal s.data →
        getUserById db s = ⟨200, none⟩)) := by
  refine ⟨?_, ?_, ?_⟩
  · intro h; simp [getUserById, h]
  · intro h hnone
    have hnil : db.users.filter (fun u => u.id == digitsVal s.data) = [] :=
      list_filter_nil_of _ _ (fun u hu => by simp [hnone u hu])
    simp [getUserById, h, hnil]
  · intro h u hu hid
    have hpos : (db.users.filter (fun u => u.id == digitsVal s.data)).length ≠ 0 :=
      list_filter_length_pos_of _ _ u hu (by simp [hid])
    simp [getUserById, h, hpos]

/-- C9 witness: the malformed id `"12a"` is answered 400, the digit string
`"9"` (no such user) 404, and `"2"` (existing user) 200. -/
theorem getById_amended_witness :
    getUserById sampleDB "12a" = ⟨400, some "Validation failed"⟩
    ∧ getUserById sampleDB "9" = ⟨404, some "User not found"⟩
    ∧ getUserById sampleDB "2" = ⟨200, none⟩ := by
  refine ⟨(getById_amended sampleDB "12a").1 (by decide),
    (getById_amended sampleDB "9").2.1 (by decide) (by decide),
    (getById_amended sampleDB "2").2.2 (by decide)
      ⟨2, "bob", "bob@example.com", "hash2"⟩ (by decide) (by decide)⟩

/-- C8: for a login with an email matching no user and a login with an
existing email but a password failing the hash comparison, both responses
are 401 with the identical `Invalid email or password` body — no
user-enumeration signal. -/
theorem login_no_enumeration (cmp : String → String → Bool) (db : DB)
    (e1 p1 e2 p2 : String) (u : UserRow)
    (h1 : db.users.find? (fun x => x.email == e1) = none)
    (h2 : db.users.find? (fun x => x.email == e2) = some u)
    (h3 : cmp p2 u.password = false) :
    (login cmp db e1 p1).status = 401
    ∧ (login cmp db e2 p2).status = 401
    ∧ (login cmp db e1 p1).error = (login cmp db e2 p2).error
    ∧ (login cmp db e1 p1).error = some "Invalid email or password" := by
  refine ⟨?_, ?_, ?_, ?_⟩ <;> simp [login, h1, h2, h3]

/-- C8 witness: against the sample store (comparison modelled as string
equality with the stored hash), an unknown email and a wrong password for
`alice@example.com` both produce the same 401 response. -/
theorem login_no_enumeration_witness :
    (login (fun p h => p == h) sampleDB "nobody@example.com" "pw").status = 401
    ∧ (login (fun p h => p == h) sampleDB "alice@example.com" "wrong").status = 401
    ∧ (login (fun p h => p == h) sampleDB "nobody@example.com" "pw").error
        = (login (fun p h => p == h) sampleDB "alice@example.com" "wrong").error := by
  obtain ⟨h1, h2, h3, -⟩ := login_no_enumeration (fun p h => p == h) sampleDB
    "nobody@example.com" "pw" "alice@example.com" "wrong"
    ⟨1, "alice", "alice@example.com", "hash1"⟩ (by decide) (by decide) (by decide)
  exact ⟨h1, h2, h3⟩

/-- C10: the authentication guard resolves the caller purely from the
verified token payload — a validly signed token for a user id that no longer
exists in the store is accepted, the id is attached to the request, and the
mutation pipeline proceeds past authentication (the `DELETE /users/:id`
pipeline reaches the handler's own 404, never the guard's 401/403). -/
theorem auth_accepts_deleted_user (verify : String → Option Nat) (tok : String)
    (uid : Nat) (db : DB) (idStr : String)
    (hv : verify tok = some uid)
    (hid : validateIdOk idStr = true)
    (hval : digitsVal idStr.data = uid)
    (hgone : ∀ u ∈ db.users, u.id ≠ uid) :
    authenticateToken verify (some ("Bearer " ++ tok)) = .ok uid
    ∧ deleteUserEndpoint verify (some ("Bearer " ++ tok)) db idStr
        = (⟨404, some "User not found"⟩, db) := by
  obtain ⟨cs⟩ := tok
  have hauth : authenticateToken verify (some ("Bearer " ++ String.mk cs)) = .ok uid := by
    show (match verify (String.mk cs) with
      | none => AuthResult.fail 403 "Invalid or expired token"
      | some u => AuthResult.ok u) = .ok uid
    rw [hv]
  have hmatched : db.users.filter (fun u => u.id == uid) = [] :=
    list_filter_nil_of _ _ (fun u hu => by simp [hgone u hu])
  have hkept : db.users.filter (fun u => !(u.id == uid)) = db.users :=
    list_filter_all_of _ _ (fun u hu => by simp [hgone u hu])
  refine ⟨hauth, ?_⟩
  simp [deleteUserEndpoint, hid, hauth, hval, deleteUser, hmatched, hkept]

/-- C10 witness: with a verifier accepting the token `tok7` for user id 7,
a store holding no user 7 still lets the bearer of `tok7` through the
guard; the delete pipeline answers the handler's 404. -/
theorem auth_accepts_deleted_user_witness :
    authenticateToken (fun t => if t == "tok7" then some 7 else none)
        (some "Bearer tok7") = .ok 7
    ∧ deleteUserEndpoint (fun t => if t == "tok7" then some 7 else none)
        (some "Bearer tok7") sampleDB "7"
        = (⟨404, some "User not found"⟩, sampleDB) := by
  have h := auth_accepts_deleted_user (fun t => if t == "tok7" then some 7 else none)
    "tok7" 7 sampleDB "7" (by decide) (by decide) (by decide) (by decide)
  exact h

/-- C2: the `GET /articles` handler never reads the `sort` query parameter —
the response to `sort=category` equals the unsorted response, its category
names come out in table order (`Politics, Aid, Politics, Aid`), which is not
non-decreasing, and likewise `sort=author` leaves the submitter names
(`alice, bob, alice, bob`) unsorted.  This contradicts the repository's own
README, which documents `sort=category` and `sort=author` on the articles
list. -/
theorem articles_sort_ignored :
    getArticles sampleDB ⟨none, none, some "category"⟩
      = getArticles sampleDB ⟨none, none, none⟩
    ∧ (getArticles sampleDB ⟨none, none, some "category"⟩).map
        (fun r => r.category_name) = ["Politics", "Aid", "Politics", "Aid"]
    ∧ nonDecreasing ((getArticles sampleDB ⟨none, none, some "category"⟩).map
        fun r => r.category_name) = false
    ∧ (getArticles sampleDB ⟨none, none, some "author"⟩).map
        (fun r => r.submitter_name) = ["alice", "bob", "alice", "bob"]
    ∧ nonDecreasing ((getArticles sampleDB ⟨none, none, some "author"⟩).map
        fun r => r.submitter_name) = false := by
  exact ⟨by decide, by decide, by decide, by decide, by decide⟩

/-- C3: the `GET /articles` handler never calls the pagination resolver and
its SQL has no LIMIT/OFFSET — against a store of four articles,
`page=2&limit=3` returns all four rows (the claim demands exactly the
4th–6th), and `limit=3` with `page` omitted also returns all four (the claim
demands items 1–3). -/
theorem articles_pagination_ignored :
    getArticles sampleDB ⟨some "2", some "3", none⟩
      = getArticles sampleDB ⟨none, none, none⟩
    ∧ (getArticles sampleDB ⟨some "2", some "3", none⟩).length = 4
    ∧ ¬ ((getArticles sampleDB ⟨some "2", some "3", none⟩).length ≤ 3)
    ∧ (getArticles sampleDB ⟨none, some "3", none⟩).length = 4 := by
  exact ⟨by decide, by decide, by decide, by decide⟩

/-- C5: every Article create/update carrying a `category_id` that matches no
category, and every Comment create/update carrying an `article_id` that
matches no article (for PATCH: when the reference field is present, and —
per its body schema — positive), is answered 404 by the existence precheck
and the store is returned unchanged — no row written or modified. -/
theorem referential_404 (db : DB) (caller : Nat) :
    (∀ t b cid, (∀ c ∈ db.categories, c.id ≠ cid) →
      postArticle db caller t b cid = (⟨404, some "Category not found"⟩, db))
    ∧ (∀ aid t b cid, (∀ c ∈ db.categories, c.id ≠ cid) →
      putArticle db aid caller t b cid = (⟨404, some "Category not found"⟩, db))
    ∧ (∀ aid t? b? cid, (∀ c ∈ db.categories, c.id ≠ cid) →
      patchArticle db aid caller t? b? (some cid)
        = (⟨404, some "Category not found"⟩, db))
    ∧ (∀ content aid, (∀ a ∈ db.articles, a.id ≠ aid) →
      postComment db caller content aid = (⟨404, some "Article not found"⟩, db))
    ∧ (∀ cid2 content aid, (∀ a ∈ db.articles, a.id ≠ aid) →
      putComment db cid2 caller content aid
        = (⟨404, some "Article not found"⟩, db))
    ∧ (∀ cid2 c? aid, aid ≠ 0 → (∀ a ∈ db.articles, a.id ≠ aid) →
      patchComment db cid2 caller c? (some aid)
        = (⟨404, some "Article not found"⟩, db)) := by
  refine ⟨?_, ?_, ?_, ?_, ?_, ?_⟩
  · intro t b cid h
    have hnil : db.categories.filter (fun c => c.id == cid) = [] :=
      list_filter_nil_of _ _ (fun c hc => by simp [h c hc])
    simp [postArticle, hnil]
  · intro aid t b cid h
    have hnil : db.categories.filter (fun c => c.id == cid) = [] :=
      list_filter_nil_of _ _ (fun c hc => by simp [h c hc])
    simp [putArticle, hnil]
  · intro aid t? b? cid h
    have hnil : db.categories.filter (fun c => c.id == cid) = [] :=
      list_filter_nil_of _ _ (fun c hc => by simp [h c hc])
    simp [patchArticle, hnil]
  · intro content aid h
    have hnil : db.articles.filter (fun a => a.id == aid) = [] :=
      list_filter_nil_of _ _ (fun a ha => by simp [h a ha])
    simp [postComment, hnil]
  · intro cid2 content aid h
    have hnil : db.articles.filter (fun a => a.id == aid) = [] :=
      list_filter_nil_of _ _ (fun a ha => by simp [h a ha])
    simp [putComment, hnil]
  · intro cid2 c? aid hpos h
    have hnil : db.articles.filter (fun a => a.id == aid) = [] :=
      list_filter_nil_of _ _ (fun a ha => by simp [h a ha])
    simp [patchComment, truthyN, hpos, hnil]

/-- C5 witness: creating an article under category 99 and a comment under
article 99 (neither exists in the sample store) both answer 404 and leave
the store untouched; the same holds for a PATCH carrying the dangling
reference. -/
theorem referential_404_witness :
    postArticle sampleDB 1 "t" "b" 99 = (⟨404, some "Category not found"⟩, sampleDB)
    ∧ postComment sampleDB 1 "c" 99 = (⟨404, some "Article not found"⟩, sampleDB)
    ∧ patchArticle sampleDB 1 1 none none (some 99)
        = (⟨404, some "Category not found"⟩, sampleDB) := by
  obtain ⟨h1, -, h3, h4, -, -⟩ := referential_404 sampleDB 1
  exact ⟨h1 "t" "b" 99 (by decide), h4 "c" 99 (by decide),
    h3 1 none none 99 (by decide)⟩

/-- C7 counterexample: a PATCH on `/users/1` by its owner with zero
recognized fields is answered neither 400 nor a no-op success — the handler
interpolates an empty SET clause, the storage engine rejects the statement,
and the boundary surfaces a 500; the target row is indeed unchanged. -/
theorem empty_patch_counterexample :
    (patchUser sampleDB 1 1 none none).fst.status = 500
    ∧ (patchUser sampleDB 1 1 none none).snd = sampleDB
    ∧ (patchUser sampleDB 1 1 none none).fst.status ≠ 400
    ∧ ¬ (200 ≤ (patchUser sampleDB 1 1 none none).fst.status
          ∧ (patchUser sampleDB 1 1 none none).fst.status < 300) := by
  exact ⟨by decide, by decide, by decide, by decide⟩

/-- C7 (amended): a PATCH with zero recognized (truthy) fields never
modifies the target row, but the policy is neither a 400 rejection nor a
no-op success: the owner receives the boundary's 500 for the storage
engine's rejection of the empty-SET UPDATE, and a non-owner receives the
guard's 403. -/
theorem empty_patch_amended (db : DB) (target caller : Nat)
    (u? e? : Option String) (hu : truthyS u? = false) (he : truthyS e? = false) :
    (patchUser db target caller u? e?).snd = db
    ∧ (caller = target →
        (patchUser db target caller u? e?).fst
          = errorHandler ⟨none, some sqlSyntaxErrorDetail⟩)
    ∧ (caller ≠ target → (patchUser db target caller u? e?).fst.status = 403) := by
  by_cases h : caller = target
  · refine ⟨?_, fun _ => ?_, fun hc => absurd h hc⟩ <;>
      simp [patchUser, h, hu, he]
  · refine ⟨?_, fun hc => absurd hc h, fun _ => ?_⟩ <;>
      simp [patchUser, h, hu, he]

/-- C7 witness: a PATCH by owner 2 on user 2 whose body carries only the
falsy empty-string username leaves the store unchanged and surfaces the
500 storage error. -/
theorem empty_patch_amended_witness :
    (patchUser sampleDB 2 2 (some "") none).snd = sampleDB
    ∧ (patchUser sampleDB 2 2 (some "") none).fst
        = errorHandler ⟨none, some sqlSyntaxErrorDetail⟩ := by
  obtain ⟨h1, h2, -⟩ := empty_patch_amended sampleDB 2 2 (some "") none
    (by decide) (by decide)
  exact ⟨h1, h2 rfl⟩

/-- C1 counterexample: an authenticated update on a resource owned by
another user does not always answer 403 — caller 2 sends
`PUT /comments/1` (comment 1 is owned by user 1) with a body whose
`article_id` 99 resolves to no article, and the referential precheck's 404
wins over the ownership 403; the target row is still unchanged. -/
theorem ownership_403_counterexample :
    sampleDB.comments.find? (fun c => c.id == 1) = some ⟨1, "c1", 1, 1⟩
    ∧ (1 : Nat) ≠ 2
    ∧ (putComment sampleDB 1 2 "new content" 99).fst
        = ⟨404, some "Article not found"⟩
    ∧ (putComment sampleDB 1 2 "new content" 99).fst.status ≠ 403
    ∧ (putComment sampleDB 1 2 "new content" 99).snd = sampleDB := by
  exact ⟨by decide, by decide, by decide, by decide, by decide⟩

/-- C1 (amended): an authenticated update or delete on an Article, Comment
or User whose stored owner differs from the caller answers 403 and leaves
the store unchanged, provided the request's referential precheck passes
(an update body's `category_id`/`article_id` resolves — otherwise that
precheck's 404 is returned instead) and a PATCH body carries at least one
recognized field (otherwise the empty-SET UPDATE's 500 is returned
instead); the row is unchanged in every case. -/
theorem ownership_403_amended (db : DB) (caller : Nat) :
    (∀ aid, (∀ a ∈ db.articles, a.id = aid → a.submitter_id ≠ caller) →
      deleteArticle db aid caller
        = (⟨403, some "You can only delete your own articles"⟩, db))
    ∧ (∀ cid, (∀ c ∈ db.comments, c.id = cid → c.user_id ≠ caller) →
      deleteComment db cid caller
        = (⟨403, some "You can only delete your own comments"⟩, db))
    ∧ (∀ uid, uid ≠ caller →
      deleteUser db uid caller
        = (⟨403, some "You can only delete your own user"⟩, db))
    ∧ (∀ uid un em, uid ≠ caller →
      putUser db uid caller un em
        = (⟨403, some "You can only edit your own user"⟩, db))
    ∧ (∀ uid u? e?, uid ≠ caller →
      patchUser db uid caller u? e?
        = (⟨403, some "You can only edit your own user"⟩, db))
    ∧ (∀ aid t b cid c, c ∈ db.categories → c.id = cid →
      (∀ a ∈ db.articles, a.id = aid → a.submitter_id ≠ caller) →
      putArticle db aid caller t b cid
        = (⟨403, some "You can only edit your own articles"⟩, db))
    ∧ (∀ aid t? b? c?, (∀ cid, c? = some cid → ∃ c ∈ db.categories, c.id = cid) →
      (truthyS t? = true ∨ truthyS b? = true ∨ c?.isSome = true) →
      (∀ a ∈ db.articles, a.id = aid → a.submitter_id ≠ caller) →
      patchArticle db aid caller t? b? c?
        = (⟨403, some "You can only edit your own articles"⟩, db))
    ∧ (∀ cid2 content aid a, a ∈ db.articles → a.id = aid →
      (∀ c ∈ db.comments, c.id = cid2 → c.user_id ≠ caller) →
      putComment db cid2 caller content aid
        = (⟨403, some "You can only edit your own comments"⟩, db))
    ∧ (∀ cid2 c? a?, (∀ aid, a? = some aid → aid ≠ 0 → ∃ a ∈ db.articles, a.id = aid) →
      (truthyS c? = true ∨ truthyN a? = true) →
      (∀ c ∈ db.comments, c.id = cid2 → c.user_id ≠ caller) →
      patchComment db cid2 caller c? a?
        = (⟨403, some "You can only edit your own comments"⟩, db)) := by
  refine ⟨?_, ?_, ?_, ?_, ?_, ?_, ?_, ?_, ?_⟩
  · intro aid h
    have hm : db.articles.filter (fun a => a.id == aid && a.submitter_id == caller) = [] :=
      list_filter_nil_of _ _ (fun a ha => owner_pred_false (h a ha))
    have hk : db.articles.filter (fun a => !(a.id == aid) || !(a.submitter_id == caller))
        = db.articles :=
      list_filter_all_of _ _ (fun a ha => by
        have hp := owner_pred_false (h a ha)
        cases h1 : (a.id == aid) <;> cases h2 : (a.submitter_id == caller) <;>
          simp_all)
    simp [deleteArticle, hm, hk]
  · intro cid h
    have hm : db.comments.filter (fun c => c.id == cid && c.user_id == caller) = [] :=
      list_filter_nil_of _ _ (fun c hc => owner_pred_false (h c hc))
    have hk : db.comments.filter (fun c => !(c.id == cid) || !(c.user_id == caller))
        = db.comments :=
      list_filter_all_of _ _ (fun c hc => by
        have hp := owner_pred_false (h c hc)
        cases h1 : (c.id == cid) <;> cases h2 : (c.user_id == caller) <;>
          simp_all)
    simp [deleteComment, hm, hk]
  · intro uid h
    simp [deleteUser, Ne.symm h]
  · intro uid un em h
    simp [putUser, Ne.symm h]
  · intro uid u? e? h
    simp [patchUser, Ne.symm h]
  · intro aid t b cid c hc hcid h
    have hcat : (db.categories.filter (fun x => x.id == cid)).length ≠ 0 :=
      list_filter_length_pos_of _ _ c hc (by simp [hcid])
    have hm : db.articles.filter (fun a => a.id == aid && a.submitter_id == caller) = [] :=
      list_filter_nil_of _ _ (fun a ha => owner_pred_false (h a ha))
    have hupd : sqlUpdate db.articles (fun a => a.id == aid && a.submitter_id == caller)
        (fun a => { a with title := t, body := b, category_id := cid }) = db.articles :=
      sqlUpdate_id _ _ _ (fun a ha => owner_pred_false (h a ha))
    simp [putArticle, hcat, hm, hupd]
  · intro aid t? b? c? hcat hfield h
    have hm : db.articles.filter (fun a => a.id == aid && a.submitter_id == caller) = [] :=
      list_filter_nil_of _ _ (fun a ha => owner_pred_false (h a ha))
    have hupd : ∀ g : ArticleRow → ArticleRow,
        sqlUpdate db.articles (fun a => a.id == aid && a.submitter_id == caller) g
          = db.articles :=
      fun g => sqlUpdate_id _ _ _ (fun a ha => owner_pred_false (h a ha))
    match hc : c? with
    | none =>
      rcases hfield with ht | hb | hs
      · simp [patchArticle, ht, hm, hupd]
      · simp [patchArticle, hb, hm, hupd]
      · simp at hs
    | some cid =>
      obtain ⟨c, hcmem, hcid⟩ := hcat cid rfl
      have hpos : (db.categories.filter (fun x => x.id == cid)).length ≠ 0 :=
        list_filter_length_pos_of _ _ c hcmem (by simp [hcid])
      simp [patchArticle, hpos, hm, hupd]
  · intro cid2 content aid a ha haid h
    have hart : (db.articles.filter (fun x => x.id == aid)).length ≠ 0 :=
      list_filter_length_pos_of _ _ a ha (by simp [haid])
    have hm : db.comments.filter (fun c => c.id == cid2 && c.user_id == caller) = [] :=
      list_filter_nil_of _ _ (fun c hc => owner_pred_false (h c hc))
    have hupd : sqlUpdate db.comments (fun c => c.id == cid2 && c.user_id == caller)
        (fun c => { c with content := content, article_id := aid }) = db.comments :=
      sqlUpdate_id _ _ _ (fun c hc => owner_pred_false (h c hc))
    simp [putComment, hart, hm, hupd]
  · intro cid2 c? a? hart hfield h
    have hm : db.comments.filter (fun c => c.id == cid2 && c.user_id == caller) = [] :=
      list_filter_nil_of _ _ (fun c hc => owner_pred_false (h c hc))
    have hupd : ∀ g : CommentRow → CommentRow,
        sqlUpdate db.comments (fun c => c.id == cid2 && c.user_id == caller) g
          = db.comments :=
      fun g => sqlUpdate_id _ _ _ (fun c hc => owner_pred_false (h c hc))
    match ha : a? with
    | none =>
      rcases hfield with hc | hn
      · simp [patchComment, truthyN, hc, hm, hupd]
      · simp [truthyN] at hn
    | some aid =>
      by_cases hz : aid = 0
      · rcases hfield with hc | hn
        · simp [patchComment, truthyN, hz, hc, hm, hupd]
        · simp [truthyN, hz] at hn
      · obtain ⟨a, hamem, haid⟩ := hart aid rfl hz
        have hpos : (db.articles.filter (fun x => x.id == aid)).length ≠ 0 :=
          list_filter_length_pos_of _ _ a hamem (by simp [haid])
        simp [patchComment, truthyN, hz, hpos, hm, hupd]

/-- C1 witness: caller 2 is refused with 403 and the sample store is
untouched when deleting article 1 (owned by user 1), replacing user 1, and
replacing comment 1 with a body whose article reference resolves. -/
theorem ownership_403_amended_witness :
    deleteArticle sampleDB 1 2
      = (⟨403, some "You can only delete your own articles"⟩, sampleDB)
    ∧ putUser sampleDB 1 2 "mallory" "mallory@example.com"
        = (⟨403, some "You can only edit your own user"⟩, sampleDB)
    ∧ putComment sampleDB 1 2 "hijack" 1
        = (⟨403, some "You can only edit your own comments"⟩, sampleDB) := by
  obtain ⟨h1, -, -, h4, -, -, -, h8, -⟩ := ownership_403_amended sampleDB 2
  exact ⟨h1 1 (by decide), h4 1 "mallory" "mallory@example.com" (by decide),
    h8 1 "hijack" 1 ⟨1, "T1", "B1", 1, 1⟩ (by decide) rfl (by decide)⟩

end NewsPlatform
